import Mathlib

/-!
Verification of the acquisition-and-adaptation pipeline of `social-tools`
(packages `screenshot` and `internal/errors`), shallowly embedded in Lean.

Strings are modelled as `List Char` (`String.data`).  Go regular-expression
matching over the three fixed YouTube patterns is embedded as explicit
leftmost scanning with `List.isPrefixOf`, which computes the same language
as the anchored/unanchored patterns in `screenshot/capture.go`
(see the doc comments on each definition).
-/

deriving instance DecidableEq for Except

namespace SocialTools

/-! ## URL classifier (screenshot/capture.go: `youtubeURLRegex`, `youtubeIDPatterns`,
`isYouTubeURL`, `extractYouTubeVideoID`) -/

/-- The character class `[a-zA-Z0-9_-]` used by all three ID patterns.
`Char.isAlpha`/`Char.isDigit` are ASCII, exactly as the Go class. -/
def idClass (c : Char) : Bool :=
  c.isAlpha || c.isDigit || c == '_' || c == '-'

/-- Literal part of pattern `youtube\.com/watch\?v=([a-zA-Z0-9_-]{11})`. -/
def watchMarker : List Char := "youtube.com/watch?v=".data

/-- Literal part of pattern `youtu\.be/([a-zA-Z0-9_-]{11})`. -/
def shortMarker : List Char := "youtu.be/".data

/-- Literal part of pattern `youtube\.com/embed/([a-zA-Z0-9_-]{11})`. -/
def embedMarker : List Char := "youtube.com/embed/".data

/-- One anchored attempt of a pattern `marker([a-zA-Z0-9_-]{11})` at the head
of `s`: the marker must be a literal prefix and the following 11 characters
must all be in the class. Returns the captured group. -/
def extractAt (marker s : List Char) : Option (List Char) :=
  if marker.isPrefixOf s then
    let ident := (s.drop marker.length).take 11
    if ident.length = 11 && ident.all idClass then some ident else none
  else none

/-- Leftmost unanchored match of `marker([a-zA-Z0-9_-]{11})` over `s`,
the semantics of Go `regexp.FindStringSubmatch` for these patterns:
scan positions left to right, return the first captured group. -/
def findMarkerID (marker : List Char) : List Char → Option (List Char)
  | [] => extractAt marker []
  | c :: rest =>
    match extractAt marker (c :: rest) with
    | some v => some v
    | none => findMarkerID marker rest

/-- `extractYouTubeVideoID` (capture.go lines 260-269): tries the three
patterns of `youtubeIDPatterns` in order; `none` models the
`could not extract video ID` error return. -/
def extractYouTubeVideoID (url : List Char) : Option (List Char) :=
  match findMarkerID watchMarker url with
  | some v => some v
  | none =>
    match findMarkerID shortMarker url with
    | some v => some v
    | none => findMarkerID embedMarker url

/-- `isYouTubeURL` (capture.go lines 256-258): matching of the anchored
regex `^https?://(www\.)?(youtube\.com/watch\?v=|youtu\.be/|youtube\.com/embed/)`.
Greedily consuming an initial `www.` is equivalent to the optional group
because none of the three alternatives begins with `w`. -/
def isYouTubeURL (url : List Char) : Bool :=
  match (if "https://".data.isPrefixOf url then some (url.drop 8)
         else if "http://".data.isPrefixOf url then some (url.drop 7)
         else none) with
  | none => false
  | some afterScheme =>
    let host := if "www.".data.isPrefixOf afterScheme
                then afterScheme.drop 4 else afterScheme
    watchMarker.isPrefixOf host || shortMarker.isPrefixOf host ||
      embedMarker.isPrefixOf host

/-- The classifier variant of spec §4.1: `Generic` or `VideoHost` with the
result of identifier extraction. -/
inductive Classification
  | generic
  | videoHost (extracted : Option (List Char))
deriving DecidableEq, Repr

/-- Spec §4.1 `classify`, assembled from the two pure functions the
orchestrator (capture.go lines 150-162) uses: the regex test picks the
variant, extraction supplies the identifier. -/
def classify (url : List Char) : Classification :=
  if isYouTubeURL url then .videoHost (extractYouTubeVideoID url) else .generic

example : extractYouTubeVideoID "https://youtu.be/Kf5-HWJPTIE".data
    = some "Kf5-HWJPTIE".data := by decide

example : extractYouTubeVideoID "https://www.youtube.com/watch?v=dQw4w9WgXcQ&t=1s".data
    = some "dQw4w9WgXcQ".data := by decide

example : isYouTubeURL "https://example.com/article".data = false := by decide

example : extractYouTubeVideoID "https://youtu.be/abcdefghijkLMNOP".data
    = some "abcdefghijk".data := by decide

/-! ## Thumbnail fetcher (capture.go: `downloadThumbnail`,
`downloadThumbnailWithFallback`)

The network and filesystem are external; one tier's interaction with them is
summarised by a `TierOutcome`, read off from the branch structure of
`downloadThumbnail` (capture.go lines 283-308).  The state of the
destination path is `Option FileState`. -/

/-- Contents of the destination path: number of bytes written and whether the
body was streamed to completion. -/
structure FileState where
  bytes : Nat
  complete : Bool
deriving DecidableEq, Repr

/-- How one quality tier's HTTP request and streaming went, covering every
exit of `downloadThumbnail`:
* `transportFailed` — `client.Get` returned an error;
* `badStatus code` — response status was not 200 (`HTTP %d` error);
* `createFailed` — 200, but `os.Create(outputPath)` failed;
* `streamFailed n` — 200, file created, `io.Copy` failed after `n` bytes;
* `streamed n` — 200, full body of `n` bytes copied. -/
inductive TierOutcome
  | transportFailed
  | badStatus (code : Nat)
  | createFailed
  | streamFailed (partialBytes : Nat)
  | streamed (bytes : Nat)
deriving DecidableEq, Repr

/-- Whether `downloadThumbnail` returns nil for this outcome. -/
def TierOutcome.succeeds : TierOutcome → Bool
  | .streamed _ => true
  | _ => false

/-- `downloadThumbnail` (capture.go lines 283-308): effect of one tier on the
destination path, plus its returned error.  The status check happens before
`os.Create`, so only the streaming cases touch the file; a failed `io.Copy`
leaves the partially written file in place (the code never removes it). -/
def downloadThumbnail (outcome : TierOutcome) (fs : Option FileState) :
    Except (List Char) Unit × Option FileState :=
  match outcome with
  | .transportFailed => (.error "Get: transport error".data, fs)
  | .badStatus code => (.error ("HTTP ".data ++ (toString code).data), fs)
  | .createFailed => (.error "failed to create output file".data, fs)
  | .streamFailed n => (.error "failed to write thumbnail".data, some ⟨n, false⟩)
  | .streamed n => (.ok (), some ⟨n, true⟩)

/-- The fixed quality ladder of `downloadThumbnailWithFallback`
(capture.go line 272), highest to lowest resolution. -/
def qualities : List (List Char) :=
  ["maxresdefault".data, "hqdefault".data, "mqdefault".data, "default".data]

/-- The error message built when every tier failed (capture.go line 280). -/
def allTiersFailedMsg (videoID : List Char) : List Char :=
  "failed to download thumbnail for video ID: ".data ++ videoID

/-- Result of a ladder run: which tiers were attempted (in order), the final
state of the destination path, and the returned value. -/
structure LadderRun where
  attempted : List (List Char)
  fsFinal : Option FileState
  result : Except (List Char) Unit
deriving DecidableEq, Repr

/-- The loop body of `downloadThumbnailWithFallback` (capture.go lines
274-280) over a remaining list of tiers: stop at the first tier whose
`downloadThumbnail` returns nil, discarding per-tier errors. -/
def runLadder (videoID : List Char) (tierOf : List Char → TierOutcome)
    (fs : Option FileState) : List (List Char) → LadderRun
  | [] => ⟨[], fs, .error (allTiersFailedMsg videoID)⟩
  | q :: rest =>
    match downloadThumbnail (tierOf q) fs with
    | (.ok _, fs') => ⟨[q], fs', .ok ()⟩
    | (.error _, fs') =>
      let r := runLadder videoID tierOf fs' rest
      ⟨q :: r.attempted, r.fsFinal, r.result⟩

/-- `downloadThumbnailWithFallback` (capture.go lines 271-281). -/
def downloadThumbnailWithFallback (videoID : List Char)
    (tierOf : List Char → TierOutcome) (fs : Option FileState) : LadderRun :=
  runLadder videoID tierOf fs qualities

/-! ## Acquisition orchestrator (capture.go: `CaptureScreenshot`) -/

/-- Outcome of one acquisition: whether `captureRegularScreenshot` (the page
renderer) was invoked, and the returned value. -/
structure CaptureTrace where
  rendererInvoked : Bool
  result : Except (List Char) Unit
deriving DecidableEq, Repr

/-- `CaptureScreenshot` (capture.go lines 150-162).  The thumbnail tier
outcomes (per video ID) and the renderer's result are the external world;
the decision structure is the code's.  The fallback starts from an absent
destination file. -/
def CaptureScreenshot (url : List Char)
    (tierOf : List Char → List Char → TierOutcome)
    (renderResult : Except (List Char) Unit) : CaptureTrace :=
  if isYouTubeURL url then
    match extractYouTubeVideoID url with
    | some videoID =>
      match (downloadThumbnailWithFallback videoID (tierOf videoID) none).result with
      | .ok _ => ⟨false, .ok ()⟩
      | .error _ => ⟨true, renderResult⟩
    | none => ⟨true, renderResult⟩
  else ⟨true, renderResult⟩

/-! ## Error classifier (internal/errors/errors.go: `categorizeError`,
`ScreenshotError`, `NewScreenshotError`) -/

/-- A raw Go error as `categorizeError` sees it: its message and whether the
value satisfies the `net.Error` interface (the structural check on line 56).
`Char.toLower` is the ASCII lowering; `strings.ToLower` agrees with it on
ASCII text, and all trigger substrings are ASCII. -/
structure GoErr where
  msg : List Char
  isNetError : Bool
deriving DecidableEq, Repr

/-- Go `strings.Contains(hay, needle)`: some position of `hay` starts with
`needle`. -/
def containsSub (needle : List Char) : List Char → Bool
  | [] => needle.isEmpty
  | c :: rest => needle.isPrefixOf (c :: rest) || containsSub needle rest

/-- The lowercased message `errStr` of `categorizeError` (line 34). -/
def errStrOf (e : GoErr) : List Char := e.msg.map Char.toLower

/-- `categorizeError` (errors.go lines 33-69), the nested `if` chain verbatim:
substring rules in source order with the structural `net.Error` test between
the `dns_error` and `connection_error` rules, defaulting to `unknown`. -/
def categorizeError (e : GoErr) : List Char :=
  let errStr := errStrOf e
  if containsSub "timeout".data errStr ||
      containsSub "context deadline exceeded".data errStr then "timeout".data
  else if containsSub "404".data errStr ||
      containsSub "not found".data errStr then "not_found".data
  else if containsSub "403".data errStr ||
      containsSub "forbidden".data errStr then "forbidden".data
  else if containsSub "500".data errStr || containsSub "502".data errStr ||
      containsSub "503".data errStr then "server_error".data
  else if containsSub "dns".data errStr ||
      containsSub "no such host".data errStr then "dns_error".data
  else if e.isNetError then "network_error".data
  else if containsSub "connection refused".data errStr ||
      containsSub "connection reset".data errStr then "connection_error".data
  else if containsSub "browser".data errStr ||
      containsSub "launch".data errStr then "browser_error".data
  else "unknown".data

/-- The nine category labels, in the priority order of `categorizeError`. -/
def allCategories : List (List Char) :=
  ["timeout".data, "not_found".data, "forbidden".data, "server_error".data,
   "dns_error".data, "network_error".data, "connection_error".data,
   "browser_error".data, "unknown".data]

/-- The ordered rule table the spec describes (§4.5): trigger predicate and
label, in the same priority order, `unknown` as the default of the table. -/
def categoryRules : List ((GoErr → Bool) × List Char) :=
  [(fun e => containsSub "timeout".data (errStrOf e) ||
      containsSub "context deadline exceeded".data (errStrOf e), "timeout".data),
   (fun e => containsSub "404".data (errStrOf e) ||
      containsSub "not found".data (errStrOf e), "not_found".data),
   (fun e => containsSub "403".data (errStrOf e) ||
      containsSub "forbidden".data (errStrOf e), "forbidden".data),
   (fun e => containsSub "500".data (errStrOf e) ||
      containsSub "502".data (errStrOf e) ||
      containsSub "503".data (errStrOf e), "server_error".data),
   (fun e => containsSub "dns".data (errStrOf e) ||
      containsSub "no such host".data (errStrOf e), "dns_error".data),
   (fun e => e.isNetError, "network_error".data),
   (fun e => containsSub "connection refused".data (errStrOf e) ||
      containsSub "connection reset".data (errStrOf e), "connection_error".data),
   (fun e => containsSub "browser".data (errStrOf e) ||
      containsSub "launch".data (errStrOf e), "browser_error".data)]

/-- Evaluate an ordered rule table: the first rule whose trigger fires gives
the label, and an error matching no rule falls to `unknown`. -/
def evalRules (e : GoErr) : List ((GoErr → Bool) × List Char) → List Char
  | [] => "unknown".data
  | r :: rest => if r.1 e then r.2 else evalRules e rest

/-- First-match evaluation of the rule table of spec §4.5. -/
def firstMatchCategory (e : GoErr) : List Char :=
  evalRules e categoryRules

/-- `ScreenshotError` (errors.go lines 10-16); the wall-clock timestamp is
outside the model. -/
structure ScreenshotError where
  url : List Char
  day : Int
  errorType : List Char
  message : List Char
deriving DecidableEq, Repr

/-- `NewScreenshotError` (errors.go lines 22-31). -/
def NewScreenshotError (url : List Char) (day : Int) (e : GoErr) :
    ScreenshotError :=
  ⟨url, day, categorizeError e, e.msg⟩

/-! ## Retry eligibility and retry policy (errors.go: `IsRetryableError`,
`RetryConfig.ShouldRetry`, `RetryConfig.GetDelay`) -/

/-- An error value as `IsRetryableError` receives it: either a
`*ScreenshotError` (the type assertion on line 72 succeeds) or a raw error. -/
inductive ErrValue
  | screenshot (se : ScreenshotError)
  | raw (e : GoErr)
deriving DecidableEq, Repr

/-- The message-pattern list of the raw-error branch (errors.go lines 84-92). -/
def retryablePatterns : List (List Char) :=
  ["timeout".data, "context deadline exceeded".data, "connection refused".data,
   "connection reset".data, "502".data, "503".data, "504".data]

/-- `IsRetryableError` (errors.go lines 71-101): the switch over
`ErrorType` for classified errors, otherwise the substring-pattern scan
over the lowercased message. -/
def IsRetryableError : ErrValue → Bool
  | .screenshot se =>
    if se.errorType = "timeout".data ∨ se.errorType = "server_error".data ∨
        se.errorType = "network_error".data ∨
        se.errorType = "connection_error".data then true
    else if se.errorType = "not_found".data ∨ se.errorType = "forbidden".data ∨
        se.errorType = "dns_error".data ∨
        se.errorType = "browser_error".data then false
    else false
  | .raw e => retryablePatterns.any (fun p => containsSub p (e.msg.map Char.toLower))

/-- The four retryable categories (errors.go lines 74, spec §4.5). -/
def retryableCategories : List (List Char) :=
  ["timeout".data, "server_error".data, "network_error".data,
   "connection_error".data]

/-- The five non-retryable categories (errors.go lines 76-79, spec §4.5). -/
def nonRetryableCategories : List (List Char) :=
  ["not_found".data, "forbidden".data, "dns_error".data, "browser_error".data,
   "unknown".data]

/-- `RetryConfig` (errors.go lines 103-109).  `time.Duration` fields are
modelled as exact rationals (nanosecond counts idealized: the Go code rounds
through `float64` and truncates to integer nanoseconds). -/
structure RetryConfig where
  maxRetries : Nat
  initialDelay : ℚ
  backoffFactor : ℚ
  maxDelay : ℚ
  retryableErrors : List (List Char)
deriving DecidableEq, Repr

/-- `NewDefaultRetryConfig` (errors.go lines 111-124), delays in seconds. -/
def NewDefaultRetryConfig : RetryConfig :=
  ⟨3, 1, 2, 30, retryableCategories⟩

/-- `RetryConfig.ShouldRetry` (errors.go lines 126-131). -/
def ShouldRetry (rc : RetryConfig) (err : ErrValue) (attempt : Nat) : Bool :=
  if attempt ≥ rc.maxRetries then false else IsRetryableError err

/-- The `for` loop of `GetDelay` (errors.go lines 134-137): `multiplier`
after `attempt` iterations of `multiplier *= rc.BackoffFactor`. -/
def multiplierLoop (b : ℚ) : Nat → ℚ
  | 0 => 1
  | n + 1 => multiplierLoop b n * b

/-- `RetryConfig.GetDelay` (errors.go lines 133-143): scale the initial delay
by the accumulated multiplier, clamp to the maximum delay. -/
def GetDelay (rc : RetryConfig) (attempt : Nat) : ℚ :=
  let delay := rc.initialDelay * multiplierLoop rc.backoffFactor attempt
  if delay > rc.maxDelay then rc.maxDelay else delay

example : categorizeError ⟨"404 Not Found".data, false⟩ = "not_found".data := by decide
example : categorizeError ⟨"connection refused".data, false⟩ = "connection_error".data := by decide
example : categorizeError ⟨"Timeout: connection refused".data, false⟩ = "timeout".data := by decide
example : categorizeError ⟨"weird".data, false⟩ = "unknown".data := by decide
example : GetDelay NewDefaultRetryConfig 4 = 16 := by
  norm_num [GetDelay, NewDefaultRetryConfig, multiplierLoop]
example : GetDelay NewDefaultRetryConfig 7 = 30 := by
  norm_num [GetDelay, NewDefaultRetryConfig, multiplierLoop]

/-! ## Adaptive resizer (screenshot/resize.go: `SmartCrop`, `PlatformConfigs`)

Only pixel dimensions and the choice of resampling operation matter to the
claims, so an image is its bounds.  The `float64` ratio comparison
`originalRatio > targetRatio` is embedded as the exact cross-multiplied
integer comparison, and Go's `int(...)` truncation of a positive quotient as
`Nat` floor division; at the concrete dimensions appearing in the claims the
two (binary64 and exact) computations agree, the quantities being far from
any rounding boundary. -/

/-- Width and height of a raster image (`Bounds().Dx()`, `Bounds().Dy()`). -/
structure ImgDims where
  width : Nat
  height : Nat
deriving DecidableEq, Repr

/-- The resampling operation `SmartCrop` selects before its final fill pass
(resize.go lines 56-72): a top-aligned crop `Crop(Rect(0,0,w,newHeight))`, a
left-aligned crop `Crop(Rect(0,0,newWidth,h))`, a proportional resize to the
target width or height, or the equal-ratio direct resize. -/
inductive CropStep
  | cropTop (w h : Nat)
  | cropLeft (w h : Nat)
  | resizeToWidth (w : Nat)
  | resizeToHeight (h : Nat)
  | resizeExact (w h : Nat)
deriving DecidableEq, Repr

/-- `true` exactly for the top-aligned full-source-width crop. -/
def CropStep.isCropTop : CropStep → Bool
  | .cropTop _ _ => true
  | _ => false

/-- Branch selection of `SmartCrop` (resize.go lines 51-72).
`src.width * tH > tW * src.height` is `originalRatio > targetRatio`
cross-multiplied; `src.width * tH / tW` is
`int(float64(originalWidth) / targetRatio)`. -/
def smartCropStep (src : ImgDims) (tW tH : Nat) : CropStep :=
  if src.width * tH > tW * src.height then
    let newHeight := src.width * tH / tW
    if newHeight ≤ src.height then .cropTop src.width newHeight
    else .resizeToWidth tW
  else if src.width * tH < tW * src.height then
    let newWidth := src.height * tW / tH
    if newWidth ≤ src.width then .cropLeft newWidth src.height
    else .resizeToHeight tH
  else .resizeExact tW tH

/-- Dimensions produced by one `imaging` resampling operation.  `Crop`
intersects the rectangle with the image bounds; `Resize` with one zero
dimension preserves the aspect (rounding idealized as floor — the value is
irrelevant to the claims, which depend only on the final fill). -/
def stepDims (src : ImgDims) : CropStep → ImgDims
  | .cropTop w h => ⟨min w src.width, min h src.height⟩
  | .cropLeft w h => ⟨min w src.width, min h src.height⟩
  | .resizeToWidth w => ⟨w, src.height * w / src.width⟩
  | .resizeToHeight h => ⟨src.width * h / src.height, h⟩
  | .resizeExact w h => ⟨w, h⟩

/-- Modelled from the spec: `imaging.Fill` of the external `imaging` library
is not part of the repository; spec §4.6 step 5 gives its contract — a
"centered fill/crop pass to guarantee exact target dimensions" applied to
the intermediate image. -/
def fillDims (d : ImgDims) (tW tH : Nat) : ImgDims := ⟨tW, tH⟩

/-- Modelled from the spec: `imaging.Sharpen` is "a mild sharpening pass"
(spec §4.6 step 5); it resamples in place and keeps dimensions. -/
def sharpenDims (d : ImgDims) : ImgDims := d

/-- `SmartCrop` (resize.go lines 46-77) at the level of dimensions: the
selected resampling step, then `imaging.Fill(..., targetWidth, targetHeight,
imaging.Center, ...)`, then `imaging.Sharpen`. -/
def SmartCrop (src : ImgDims) (tW tH : Nat) : ImgDims :=
  sharpenDims (fillDims (stepDims src (smartCropStep src tW tH)) tW tH)

/-- The two entries of `PlatformConfigs` (resize.go lines 18-21). -/
def PlatformConfigs : List (List Char × ImgDims) :=
  [("twitter".data, ⟨1200, 628⟩), ("linkedin".data, ⟨1200, 627⟩)]

example : smartCropStep ⟨1920, 1080⟩ 1200 628 = .resizeToHeight 628 := by decide
example : smartCropStep ⟨600, 800⟩ 1200 628 = .resizeToHeight 628 := by decide
example : smartCropStep ⟨1000, 523⟩ 1200 628 = .cropTop 1000 523 := by decide
example : smartCropStep ⟨1000, 250⟩ 1200 628 = .resizeToWidth 1200 := by decide

/-! ## Theorems -/

/-- C1: for every source image and positive target width and height,
`SmartCrop` returns an image of exactly the target dimensions, whatever the
source dimensions and aspect ratio (the final `imaging.Fill` pass, whose
contract is spec §4.6 step 5, forces them on every branch). -/
theorem smartCrop_exact_target_dims (src : ImgDims) (tW tH : Nat)
    (hW : 0 < tW) (hH : 0 < tH) : SmartCrop src tW tH = ⟨tW, tH⟩ := rfl

/-- Witness for C1 at a 1920×1080 source and the Twitter target. -/
theorem smartCrop_exact_target_dims_witness :
    0 < 1200 ∧ 0 < 628 ∧ SmartCrop ⟨1920, 1080⟩ 1200 628 = ⟨1200, 628⟩ :=
  ⟨by decide, by decide,
    smartCrop_exact_target_dims ⟨1920, 1080⟩ 1200 628 (by decide) (by decide)⟩

/-- C9 counterexample: resizing a 1920×1080 source to 1200×628 does NOT take
the top-aligned full-width crop: 1920/1080 < 1200/628 (cross-multiplied,
1920·628 = 1205760 < 1296000 = 1200·1080), so `SmartCrop` enters the
source-taller branch. -/
theorem smartCrop_1920_1080_not_cropTop :
    (smartCropStep ⟨1920, 1080⟩ 1200 628).isCropTop = false := by decide

/-- C9 amended: resizing a 1920×1080 source to target 1200×628 takes the
source-taller-than-target-ratio branch; the computed crop width
1080·1200/628 = 2063 exceeds the source width 1920, so the source is
uniformly resized to the target height instead of being cropped. -/
theorem smartCrop_1920_1080_resizesToHeight :
    smartCropStep ⟨1920, 1080⟩ 1200 628 = .resizeToHeight 628 ∧
      1080 * 1200 / 628 = 2063 ∧ 1920 < 2063 := by decide

/-- Helper: an ordered rule table whose labels all lie in `allCategories`
evaluates into `allCategories` (the default `unknown` is a category too). -/
theorem evalRules_mem_of_labels (e : GoErr) :
    ∀ rules : List ((GoErr → Bool) × List Char),
      (∀ r ∈ rules, r.2 ∈ allCategories) → evalRules e rules ∈ allCategories
  | [], _ => by simp [evalRules, allCategories]
  | r :: rest, h => by
    unfold evalRules
    split
    · exact h r (List.mem_cons_self r rest)
    · exact evalRules_mem_of_labels e rest fun r' hr' =>
        h r' (List.mem_cons_of_mem r hr')

/-- C5: `categorizeError` evaluates the ordered rule table in priority order
with first match winning (it coincides with `firstMatchCategory`, the
first-match evaluation of the explicit rule list), and every error receives
exactly one of the nine categories, `unknown` when no rule fires.
Determinism under multiple matching substrings is inherent: the result is a
function of the error alone. -/
theorem categorizeError_first_match_and_total (e : GoErr) :
    categorizeError e = firstMatchCategory e ∧
      categorizeError e ∈ allCategories := by
  constructor
  · rfl
  · have heq : categorizeError e = firstMatchCategory e := rfl
    rw [heq]
    exact evalRules_mem_of_labels e categoryRules
      (by simp [categoryRules, allCategories])

/-- Helper: for a classified error, `IsRetryableError` is exactly membership
of the category in the retryable set. -/
theorem isRetryable_iff_mem (se : ScreenshotError) :
    IsRetryableError (.screenshot se) = true ↔
      se.errorType ∈ retryableCategories := by
  simp only [IsRetryableError, retryableCategories]
  split
  · simp_all
  · split <;> simp_all [not_or]

/-- C6: for every classified error and attempt count, `ShouldRetry` holds
iff the attempt count is below `MaxRetries` and the error's category is one
of {timeout, server_error, network_error, connection_error}; in particular
it is false once `attempt ≥ MaxRetries` whatever the category, and false at
attempt 0 for every non-retryable category. -/
theorem shouldRetry_characterization (rc : RetryConfig) (url : List Char)
    (day : Int) (e : GoErr) (attempt : Nat) :
    (ShouldRetry rc (.screenshot (NewScreenshotError url day e)) attempt = true ↔
      (attempt < rc.maxRetries ∧ categorizeError e ∈ retryableCategories)) ∧
    (rc.maxRetries ≤ attempt →
      ShouldRetry rc (.screenshot (NewScreenshotError url day e)) attempt = false) ∧
    (categorizeError e ∈ nonRetryableCategories →
      ShouldRetry rc (.screenshot (NewScreenshotError url day e)) 0 = false) := by
  have hiff := isRetryable_iff_mem (NewScreenshotError url day e)
  have htype : (NewScreenshotError url day e).errorType = categorizeError e := rfl
  rw [htype] at hiff
  refine ⟨?_, ?_, ?_⟩
  · unfold ShouldRetry
    split
    · simp only [Bool.false_eq_true, false_iff]
      exact fun hc => absurd hc.1 (by omega)
    · rw [hiff]
      exact ⟨fun hm => ⟨by omega, hm⟩, fun hc => hc.2⟩
  · intro h
    unfold ShouldRetry
    split
    · rfl
    · omega
  · intro h
    have hnot : categorizeError e ∉ retryableCategories := by
      simp only [nonRetryableCategories, List.mem_cons, List.not_mem_nil,
        or_false] at h
      rcases h with h | h | h | h | h <;> rw [h] <;> decide
    unfold ShouldRetry
    split
    · rfl
    · cases hb : IsRetryableError (.screenshot (NewScreenshotError url day e))
      · rfl
      · exact absurd (hiff.mp hb) hnot

/-- Helper: the `for` loop of `GetDelay` computes the power
`BackoffFactor ^ attempt`. -/
theorem multiplierLoop_eq_pow (b : ℚ) (n : Nat) : multiplierLoop b n = b ^ n := by
  induction n with
  | zero => simp [multiplierLoop]
  | succ n ih => rw [multiplierLoop, ih, pow_succ]

/-- C7: for every configuration with positive initial delay, backoff
multiplier above 1 and max delay at least the initial delay,
`GetDelay attempt = min (initialDelay * backoffFactor ^ attempt) maxDelay`;
the delay never exceeds the max delay, and strictly increases with the
attempt number until it reaches the clamp. -/
theorem getDelay_formula (rc : RetryConfig) (h0 : 0 < rc.initialDelay)
    (h1 : 1 < rc.backoffFactor) (h2 : rc.initialDelay ≤ rc.maxDelay) :
    (∀ a, GetDelay rc a = min (rc.initialDelay * rc.backoffFactor ^ a) rc.maxDelay) ∧
    (∀ a, GetDelay rc a ≤ rc.maxDelay) ∧
    (∀ a, GetDelay rc a < rc.maxDelay → GetDelay rc a < GetDelay rc (a + 1)) := by
  have hformula : ∀ a,
      GetDelay rc a = min (rc.initialDelay * rc.backoffFactor ^ a) rc.maxDelay := by
    intro a
    unfold GetDelay
    rw [multiplierLoop_eq_pow]
    rcases le_or_lt (rc.initialDelay * rc.backoffFactor ^ a) rc.maxDelay with h | h
    · rw [if_neg (not_lt.mpr h), min_eq_left h]
    · rw [if_pos h, min_eq_right h.le]
  have hpos : ∀ a, 0 < rc.initialDelay * rc.backoffFactor ^ a := fun a =>
    mul_pos h0 (pow_pos (lt_trans zero_lt_one h1) a)
  refine ⟨hformula, fun a => by rw [hformula]; exact min_le_right _ _, ?_⟩
  intro a hlt
  rw [hformula] at hlt
  have hraw : rc.initialDelay * rc.backoffFactor ^ a < rc.maxDelay := by
    by_contra hc
    rw [min_eq_right (not_lt.mp hc)] at hlt
    exact lt_irrefl _ hlt
  have heqa : GetDelay rc a = rc.initialDelay * rc.backoffFactor ^ a := by
    rw [hformula, min_eq_left hraw.le]
  have hgrow : rc.initialDelay * rc.backoffFactor ^ a <
      rc.initialDelay * rc.backoffFactor ^ (a + 1) := by
    rw [pow_succ, ← mul_assoc]
    exact lt_mul_of_one_lt_right (hpos a) h1
  rw [heqa, hformula]
  exact lt_min hgrow hraw

/-- Witness for C7 at the default retry configuration, attempt 2. -/
theorem getDelay_formula_witness :
    (0 : ℚ) < NewDefaultRetryConfig.initialDelay ∧
      GetDelay NewDefaultRetryConfig 2 =
        min (NewDefaultRetryConfig.initialDelay *
          NewDefaultRetryConfig.backoffFactor ^ 2) NewDefaultRetryConfig.maxDelay :=
  ⟨by norm_num [NewDefaultRetryConfig],
    (getDelay_formula NewDefaultRetryConfig (by norm_num [NewDefaultRetryConfig])
      (by norm_num [NewDefaultRetryConfig])
      (by norm_num [NewDefaultRetryConfig])).1 2⟩

/-- Witness for C6 at the default configuration with a timeout error. -/
theorem shouldRetry_characterization_witness :
    ShouldRetry NewDefaultRetryConfig
      (.screenshot (NewScreenshotError "https://example.com".data 1
        ⟨"request timeout".data, false⟩)) 1 = true :=
  (shouldRetry_characterization NewDefaultRetryConfig "https://example.com".data 1
      ⟨"request timeout".data, false⟩ 1).1.mpr ⟨by decide, by decide⟩

/-- Helper: a tier whose outcome does not succeed makes `runLadder` record
the tier, keep its (possibly modified) file state and continue. -/
theorem runLadder_cons_fail (videoID q : List Char)
    (tierOf : List Char → TierOutcome) (fs : Option FileState)
    (rest : List (List Char)) (h : (tierOf q).succeeds = false) :
    runLadder videoID tierOf fs (q :: rest) =
      ⟨q :: (runLadder videoID tierOf (downloadThumbnail (tierOf q) fs).2 rest).attempted,
       (runLadder videoID tierOf (downloadThumbnail (tierOf q) fs).2 rest).fsFinal,
       (runLadder videoID tierOf (downloadThumbnail (tierOf q) fs).2 rest).result⟩ := by
  cases ho : tierOf q <;>
    simp_all [runLadder, downloadThumbnail, TierOutcome.succeeds]

/-- Helper: a tier whose outcome succeeds stops the ladder at once. -/
theorem runLadder_cons_ok (videoID q : List Char)
    (tierOf : List Char → TierOutcome) (fs : Option FileState)
    (rest : List (List Char)) (h : (tierOf q).succeeds = true) :
    runLadder videoID tierOf fs (q :: rest) =
      ⟨[q], (downloadThumbnail (tierOf q) fs).2, .ok ()⟩ := by
  cases ho : tierOf q <;>
    simp_all [runLadder, downloadThumbnail, TierOutcome.succeeds]

/-- Helper: when every tier on the list fails, the ladder attempts them all
and returns the video-ID failure message. -/
theorem runLadder_all_fail (videoID : List Char)
    (tierOf : List Char → TierOutcome) :
    ∀ (tiers : List (List Char)) (fs : Option FileState),
      (∀ q ∈ tiers, (tierOf q).succeeds = false) →
      (runLadder videoID tierOf fs tiers).result =
          .error (allTiersFailedMsg videoID) ∧
        (runLadder videoID tierOf fs tiers).attempted = tiers
  | [], _, _ => ⟨rfl, rfl⟩
  | q :: rest, fs, h => by
    have hq : (tierOf q).succeeds = false := h q (List.mem_cons_self q rest)
    rw [runLadder_cons_fail _ _ _ _ _ hq]
    have ih := runLadder_all_fail videoID tierOf rest
      ((downloadThumbnail (tierOf q) fs).2)
      (fun q' hq' => h q' (List.mem_cons_of_mem q hq'))
    exact ⟨ih.1, by simp [ih.2]⟩

/-- C4: the thumbnail fetcher tries exactly the four quality tiers
`maxresdefault, hqdefault, mqdefault, default` in that fixed order; the
first tier whose download succeeds returns success immediately with no
later tier attempted, and when all four fail the returned failure is the
message naming the video ID (no per-tier error detail survives). -/
theorem ladder_first_success_or_exhaustion (videoID : List Char)
    (tierOf : List Char → TierOutcome) (fs : Option FileState) :
    qualities = ["maxresdefault".data, "hqdefault".data, "mqdefault".data,
      "default".data] ∧
    (∀ i, (hi : i < qualities.length) →
      (tierOf (qualities.get ⟨i, hi⟩)).succeeds = true →
      (∀ q ∈ qualities.take i, (tierOf q).succeeds = false) →
      (downloadThumbnailWithFallback videoID tierOf fs).result = .ok () ∧
        (downloadThumbnailWithFallback videoID tierOf fs).attempted =
          qualities.take (i + 1)) ∧
    ((∀ q ∈ qualities, (tierOf q).succeeds = false) →
      (downloadThumbnailWithFallback videoID tierOf fs).result =
          .error (allTiersFailedMsg videoID) ∧
        (downloadThumbnailWithFallback videoID tierOf fs).attempted = qualities) := by
  refine ⟨rfl, ?_, ?_⟩
  · intro i hi hsucc hprev
    unfold downloadThumbnailWithFallback
    match i with
    | 0 =>
      have hs : (tierOf "maxresdefault".data).succeeds = true := hsucc
      rw [show qualities = "maxresdefault".data :: ["hqdefault".data,
        "mqdefault".data, "default".data] from rfl,
        runLadder_cons_ok _ _ _ _ _ hs]
      exact ⟨rfl, rfl⟩
    | 1 =>
      have hs : (tierOf "hqdefault".data).succeeds = true := hsucc
      have h0 : (tierOf "maxresdefault".data).succeeds = false :=
        hprev _ (by decide)
      rw [show qualities = "maxresdefault".data :: ["hqdefault".data,
        "mqdefault".data, "default".data] from rfl,
        runLadder_cons_fail _ _ _ _ _ h0,
        runLadder_cons_ok _ _ _ _ _ hs]
      exact ⟨rfl, rfl⟩
    | 2 =>
      have hs : (tierOf "mqdefault".data).succeeds = true := hsucc
      have h0 : (tierOf "maxresdefault".data).succeeds = false :=
        hprev _ (by decide)
      have h1 : (tierOf "hqdefault".data).succeeds = false :=
        hprev _ (by decide)
      rw [show qualities = "maxresdefault".data :: ["hqdefault".data,
        "mqdefault".data, "default".data] from rfl,
        runLadder_cons_fail _ _ _ _ _ h0,
        runLadder_cons_fail _ _ _ _ _ h1,
        runLadder_cons_ok _ _ _ _ _ hs]
      exact ⟨rfl, rfl⟩
    | 3 =>
      have hs : (tierOf "default".data).succeeds = true := hsucc
      have h0 : (tierOf "maxresdefault".data).succeeds = false :=
        hprev _ (by decide)
      have h1 : (tierOf "hqdefault".data).succeeds = false :=
        hprev _ (by decide)
      have h2 : (tierOf "mqdefault".data).succeeds = false :=
        hprev _ (by decide)
      rw [show qualities = "maxresdefault".data :: ["hqdefault".data,
        "mqdefault".data, "default".data] from rfl,
        runLadder_cons_fail _ _ _ _ _ h0,
        runLadder_cons_fail _ _ _ _ _ h1,
        runLadder_cons_fail _ _ _ _ _ h2,
        runLadder_cons_ok _ _ _ _ _ hs]
      exact ⟨rfl, rfl⟩
    | n + 4 =>
      have h4 : n + 4 < 4 := hi
      omega
  · intro hall
    unfold downloadThumbnailWithFallback
    exact runLadder_all_fail videoID tierOf qualities fs hall

/-- Witness for C4: only the third tier succeeds, so exactly the first three
tiers are attempted and the call returns success. -/
theorem ladder_first_success_witness :
    (downloadThumbnailWithFallback "Kf5-HWJPTIE".data
        (fun q => if q = "mqdefault".data then .streamed 2048 else .badStatus 404)
        none).result = .ok () ∧
      (downloadThumbnailWithFallback "Kf5-HWJPTIE".data
        (fun q => if q = "mqdefault".data then .streamed 2048 else .badStatus 404)
        none).attempted = qualities.take 3 :=
  (ladder_first_success_or_exhaustion "Kf5-HWJPTIE".data
      (fun q => if q = "mqdefault".data then .streamed 2048 else .badStatus 404)
      none).2.1 2 (by decide) (by decide) (by decide)

/-- C8 counterexample: starting from an absent destination file, when the
`maxresdefault` tier gets a 200 response, creates the file and then fails
partway through `io.Copy` (4096 bytes written) and every other tier returns
404, the fallback returns failure yet an incomplete file is left at the
destination path — `downloadThumbnail` never removes a partial write. -/
theorem ladder_leaves_partial_file :
    (downloadThumbnailWithFallback "dQw4w9WgXcQ".data
        (fun q => if q = "maxresdefault".data then .streamFailed 4096
          else .badStatus 404) none).result =
      .error (allTiersFailedMsg "dQw4w9WgXcQ".data) ∧
    (downloadThumbnailWithFallback "dQw4w9WgXcQ".data
        (fun q => if q = "maxresdefault".data then .streamFailed 4096
          else .badStatus 404) none).fsFinal = some ⟨4096, false⟩ := by
  decide

/-- Helper: a ladder returning success leaves a completely streamed file. -/
theorem runLadder_ok_complete_file (videoID : List Char)
    (tierOf : List Char → TierOutcome) :
    ∀ (tiers : List (List Char)) (fs : Option FileState),
      (runLadder videoID tierOf fs tiers).result = .ok () →
      ∃ n, (runLadder videoID tierOf fs tiers).fsFinal = some ⟨n, true⟩
  | [], fs, h => by simp [runLadder] at h
  | q :: rest, fs, h => by
    cases hq : (tierOf q).succeeds with
    | true =>
      rw [runLadder_cons_ok _ _ _ _ _ hq]
      cases ho : tierOf q <;> simp_all [TierOutcome.succeeds, downloadThumbnail]
    | false =>
      rw [runLadder_cons_fail _ _ _ _ _ hq] at h ⊢
      exact runLadder_ok_complete_file videoID tierOf rest _ h

/-- Helper: if no tier on the list fails in mid-stream, a failing ladder
leaves the destination file state untouched. -/
theorem runLadder_fail_preserves_file (videoID : List Char)
    (tierOf : List Char → TierOutcome) :
    ∀ (tiers : List (List Char)) (fs : Option FileState),
      (∀ q ∈ tiers, ∀ n, tierOf q ≠ .streamFailed n) →
      (∀ q ∈ tiers, (tierOf q).succeeds = false) →
      (runLadder videoID tierOf fs tiers).fsFinal = fs
  | [], fs, _, _ => rfl
  | q :: rest, fs, hns, hfail => by
    have hq : (tierOf q).succeeds = false := hfail q (List.mem_cons_self q rest)
    rw [runLadder_cons_fail _ _ _ _ _ hq]
    have hfs : (downloadThumbnail (tierOf q) fs).2 = fs := by
      cases ho : tierOf q with
      | streamFailed n => exact absurd ho (hns q (List.mem_cons_self q rest) n)
      | streamed n => rw [ho] at hq; simp [TierOutcome.succeeds] at hq
      | transportFailed => rfl
      | badStatus code => rfl
      | createFailed => rfl
    rw [hfs]
    exact runLadder_fail_preserves_file videoID tierOf rest fs
      (fun q' hq' => hns q' (List.mem_cons_of_mem q hq'))
      (fun q' hq' => hfail q' (List.mem_cons_of_mem q hq'))

/-- C8 amended: on success exactly one completely streamed file exists at
the destination path; on failure (all four tiers failed) no file is left at
the destination path provided no tier failed partway through streaming its
body — a tier that opens the destination and then fails mid-copy leaves its
partial file behind (see the counterexample). -/
theorem ladder_file_atomicity_amended (videoID : List Char)
    (tierOf : List Char → TierOutcome) (fs : Option FileState) :
    ((downloadThumbnailWithFallback videoID tierOf fs).result = .ok () →
      ∃ n, (downloadThumbnailWithFallback videoID tierOf fs).fsFinal =
        some ⟨n, true⟩) ∧
    ((∀ q ∈ qualities, ∀ n, tierOf q ≠ .streamFailed n) →
      (∀ q ∈ qualities, (tierOf q).succeeds = false) →
      (downloadThumbnailWithFallback videoID tierOf none).result =
          .error (allTiersFailedMsg videoID) ∧
        (downloadThumbnailWithFallback videoID tierOf none).fsFinal = none) := by
  constructor
  · exact runLadder_ok_complete_file videoID tierOf qualities fs
  · intro hns hfail
    constructor
    · exact (runLadder_all_fail videoID tierOf qualities none hfail).1
    · exact runLadder_fail_preserves_file videoID tierOf qualities none hns hfail

/-- Witness for the amended C8: every tier 404s, nothing is written. -/
theorem ladder_file_atomicity_amended_witness :
    (downloadThumbnailWithFallback "dQw4w9WgXcQ".data (fun _ => .badStatus 404)
        none).result = .error (allTiersFailedMsg "dQw4w9WgXcQ".data) ∧
      (downloadThumbnailWithFallback "dQw4w9WgXcQ".data (fun _ => .badStatus 404)
        none).fsFinal = none :=
  (ladder_file_atomicity_amended "dQw4w9WgXcQ".data (fun _ => .badStatus 404)
      none).2 (by intro q hq n h; cases h) (by decide)

/-- C2: the orchestrator `CaptureScreenshot` returns success without
invoking the page renderer exactly when the URL matches the video-host
regex, identifier extraction succeeds, and the thumbnail fallback ladder
succeeds; in every other case (generic URL, failed extraction, or failed
thumbnail fetch) it invokes the renderer and returns the renderer's
outcome. -/
theorem captureScreenshot_routing (url : List Char)
    (tierOf : List Char → List Char → TierOutcome)
    (renderResult : Except (List Char) Unit) :
    ((∃ videoID, isYouTubeURL url = true ∧
        extractYouTubeVideoID url = some videoID ∧
        (downloadThumbnailWithFallback videoID (tierOf videoID) none).result =
          .ok ()) →
      CaptureScreenshot url tierOf renderResult = ⟨false, .ok ()⟩) ∧
    ((isYouTubeURL url = false ∨ extractYouTubeVideoID url = none ∨
        (∀ videoID, extractYouTubeVideoID url = some videoID →
          (downloadThumbnailWithFallback videoID (tierOf videoID) none).result ≠
            .ok ())) →
      CaptureScreenshot url tierOf renderResult = ⟨true, renderResult⟩) := by
  constructor
  · rintro ⟨videoID, hyt, hex, hok⟩
    unfold CaptureScreenshot
    simp [hyt, hex, hok]
  · intro h
    unfold CaptureScreenshot
    rcases h with h | h | h
    · rw [h]
      simp
    · cases hyt : isYouTubeURL url
      · simp
      · rw [h]
        simp
    · cases hyt : isYouTubeURL url
      · simp
      · cases hex : extractYouTubeVideoID url with
        | none => simp
        | some videoID =>
          have hne := h videoID hex
          cases hres : (downloadThumbnailWithFallback videoID
              (tierOf videoID) none).result with
          | ok u =>
            cases u
            exact absurd hres hne
          | error m => simp [hres]

/-- Witness for C2: an all-tiers-reachable short-link acquisition returns
success with the renderer never invoked. -/
theorem captureScreenshot_routing_witness :
    CaptureScreenshot "https://youtu.be/Kf5-HWJPTIE".data
        (fun _ _ => .streamed 8192) (.error "renderer unavailable".data) =
      ⟨false, .ok ()⟩ :=
  (captureScreenshot_routing "https://youtu.be/Kf5-HWJPTIE".data
      (fun _ _ => .streamed 8192) (.error "renderer unavailable".data)).1
    ⟨"Kf5-HWJPTIE".data, by decide, by decide, by decide⟩

/-! ### Lemmas about pattern scanning, for the classifier claims -/

/-- Helper: whatever `extractAt` captures is 11 characters of the class. -/
theorem extractAt_props {marker s v : List Char}
    (h : extractAt marker s = some v) :
    v.length = 11 ∧ v.all idClass = true := by
  simp only [extractAt] at h
  split at h
  · split at h <;> rename_i hguard
    · cases h
      exact ⟨by simpa using (Bool.and_eq_true .. |>.mp hguard).1,
        (Bool.and_eq_true .. |>.mp hguard).2⟩
    · cases h
  · cases h

/-- Helper: whatever a pattern's leftmost match captures is 11 characters of
the class. -/
theorem findMarkerID_props (marker : List Char) :
    ∀ (s : List Char) {v : List Char}, findMarkerID marker s = some v →
      v.length = 11 ∧ v.all idClass = true
  | [], v, h => extractAt_props (by simpa [findMarkerID] using h)
  | c :: rest, v, h => by
    rw [findMarkerID] at h
    cases hx : extractAt marker (c :: rest) with
    | some w => rw [hx] at h; cases h; exact extractAt_props hx
    | none => rw [hx] at h; exact findMarkerID_props marker rest h

/-- Helper: whatever `extractYouTubeVideoID` returns is 11 characters of the
class, whichever of the three patterns matched. -/
theorem extractYouTubeVideoID_props {url v : List Char}
    (h : extractYouTubeVideoID url = some v) :
    v.length = 11 ∧ v.all idClass = true := by
  unfold extractYouTubeVideoID at h
  cases h1 : findMarkerID watchMarker url with
  | some w => rw [h1] at h; cases h; exact findMarkerID_props _ _ h1
  | none =>
    rw [h1] at h
    cases h2 : findMarkerID shortMarker url with
    | some w => rw [h2] at h; cases h; exact findMarkerID_props _ _ h2
    | none => rw [h2] at h; exact findMarkerID_props _ _ h

/-- Helper: a successful anchored attempt at the head of a cons cell is the
leftmost match. -/
theorem findMarkerID_cons_of_some {marker : List Char} {c : Char}
    {s v : List Char} (h : extractAt marker (c :: s) = some v) :
    findMarkerID marker (c :: s) = some v := by
  rw [findMarkerID, h]

/-- Helper: a failed anchored attempt at the head moves the scan one
character to the right. -/
theorem findMarkerID_cons_of_none {marker : List Char} {c : Char}
    {s : List Char} (h : extractAt marker (c :: s) = none) :
    findMarkerID marker (c :: s) = findMarkerID marker s := by
  rw [findMarkerID, h]

/-- Helper: the anchored attempt at the head of `marker ++ tail` succeeds and
captures the first 11 characters of `tail`, when `tail` is long enough and
its first 11 characters are in the class. -/
theorem extractAt_hit (marker tail : List Char) (h11 : 11 ≤ tail.length)
    (hcls : (tail.take 11).all idClass = true) :
    extractAt marker (marker ++ tail) = some (tail.take 11) := by
  simp only [extractAt]
  rw [if_pos (List.isPrefixOf_iff_prefix.mpr (List.prefix_append marker tail)),
    List.drop_left]
  rw [if_pos]
  simp [List.length_take, Nat.min_eq_left h11, hcls]

/-- Helper: the leftmost match of a pattern over `marker ++ tail` is found no
later than position 0, capturing the first 11 characters of `tail`. -/
theorem findMarkerID_self (marker tail : List Char) (hm : marker ≠ [])
    (h11 : 11 ≤ tail.length) (hcls : (tail.take 11).all idClass = true) :
    findMarkerID marker (marker ++ tail) = some (tail.take 11) := by
  cases hmk : marker with
  | nil => exact absurd hmk hm
  | cons a as =>
    subst hmk
    exact findMarkerID_cons_of_some (extractAt_hit (a :: as) tail h11 hcls)

/-- Helper: scanning past a prefix that never contains the pattern's head
character leaves the leftmost match unchanged. -/
theorem findMarkerID_append_noHead (m' : List Char) :
    ∀ (pre t : List Char), (∀ c ∈ pre, c ≠ 'y') →
      findMarkerID ('y' :: m') (pre ++ t) = findMarkerID ('y' :: m') t
  | [], _, _ => rfl
  | c :: pre, t, h => by
    have hc : ('y' == c) = false :=
      beq_eq_false_iff_ne.mpr (Ne.symm (h c (List.mem_cons_self c pre)))
    have hx : extractAt ('y' :: m') (c :: (pre ++ t)) = none := by
      simp only [extractAt, List.isPrefixOf, hc, Bool.false_and,
        Bool.false_eq_true, if_false]
    rw [List.cons_append, findMarkerID_cons_of_none hx]
    exact findMarkerID_append_noHead m' pre t
      fun c' hc' => h c' (List.mem_cons_of_mem c hc')

/-- Helper: a pattern containing a character outside the identifier class
never matches inside a string made only of class characters. -/
theorem findMarkerID_none_of_badChar (marker : List Char) (c0 : Char)
    (hc0 : c0 ∈ marker) (hbad : idClass c0 = false) :
    ∀ s : List Char, s.all idClass = true → findMarkerID marker s = none
  | [], _ => by
    cases hmk : marker with
    | nil => subst hmk; exact absurd hc0 (List.not_mem_nil c0)
    | cons a as => subst hmk; simp [findMarkerID, extractAt, List.isPrefixOf]
  | c :: rest, h => by
    have hall : ∀ x ∈ c :: rest, idClass x = true := List.all_eq_true.mp h
    have hx : extractAt marker (c :: rest) = none := by
      simp only [extractAt]
      rw [if_neg]
      intro hp
      have hsub : marker ⊆ c :: rest :=
        (List.isPrefixOf_iff_prefix.mp hp).sublist.subset
      rw [hall c0 (hsub hc0)] at hbad
      cases hbad
    rw [findMarkerID_cons_of_none hx]
    exact findMarkerID_none_of_badChar marker c0 hc0 hbad rest
      (List.all_eq_true.mpr fun x hx' =>
        hall x (List.mem_cons_of_mem c hx'))

/-- Helper: the watch-page pattern finds no match inside the short-link
marker: the first five characters agree but position 5 differs
(`b` versus `.`), so the scan passes straight through. -/
theorem watchScanShort (t : List Char) :
    findMarkerID watchMarker ("youtu.be/".data ++ t) =
      findMarkerID watchMarker t := rfl

/-- Helper: the watch-page pattern finds no match inside the embed marker
(position 12 differs: `w` versus `e`). -/
theorem watchScanEmbed (t : List Char) :
    findMarkerID watchMarker ("youtube.com/embed/".data ++ t) =
      findMarkerID watchMarker t := rfl

/-- Helper: the short-link pattern finds no match inside the embed marker
(position 5 differs: `.` versus `b`). -/
theorem shortScanEmbed (t : List Char) :
    findMarkerID shortMarker ("youtube.com/embed/".data ++ t) =
      findMarkerID shortMarker t := rfl

/-- Helper: a take of an all-class list is all-class. -/
theorem all_take_idClass {l : List Char} (h : l.all idClass = true) (n : Nat) :
    (l.take n).all idClass = true :=
  List.all_eq_true.mpr fun x hx =>
    List.all_eq_true.mp h x (List.mem_of_mem_take hx)

/-- Helper: prepending any prefix cannot destroy a leftmost match. -/
theorem findMarkerID_append_isSome (marker : List Char) :
    ∀ (pre s : List Char), (findMarkerID marker s).isSome = true →
      (findMarkerID marker (pre ++ s)).isSome = true
  | [], _, h => h
  | c :: pre, s, h => by
    rw [List.cons_append]
    cases hx : extractAt marker (c :: (pre ++ s)) with
    | some v => rw [findMarkerID_cons_of_some hx]; rfl
    | none =>
      rw [findMarkerID_cons_of_none hx]
      exact findMarkerID_append_isSome marker pre s h

/-- Helper: any URL containing one of the three markers followed by at least
11 identifier-class characters yields a successful extraction whose result
is 11 characters of the class (whichever pattern fires first). -/
theorem extract_general (pre marker run post : List Char)
    (hm : marker = watchMarker ∨ marker = shortMarker ∨ marker = embedMarker)
    (h11 : 11 ≤ run.length) (hcls : run.all idClass = true) :
    ∃ v, extractYouTubeVideoID (pre ++ (marker ++ (run ++ post))) = some v ∧
      v.length = 11 ∧ v.all idClass = true := by
  have htail : ((run ++ post).take 11).all idClass = true := by
    rw [List.take_append_of_le_length h11]
    exact all_take_idClass hcls 11
  have hlen : 11 ≤ (run ++ post).length := by
    rw [List.length_append]
    omega
  have hm_ne : marker ≠ [] := by
    rcases hm with rfl | rfl | rfl <;> decide
  have hself : findMarkerID marker (marker ++ (run ++ post)) =
      some ((run ++ post).take 11) :=
    findMarkerID_self marker (run ++ post) hm_ne hlen htail
  have hsome : (findMarkerID marker
      (pre ++ (marker ++ (run ++ post)))).isSome = true :=
    findMarkerID_append_isSome marker pre _ (by rw [hself]; rfl)
  unfold extractYouTubeVideoID
  cases h1 : findMarkerID watchMarker (pre ++ (marker ++ (run ++ post))) with
  | some w => exact ⟨w, rfl, findMarkerID_props _ _ h1⟩
  | none =>
    cases h2 : findMarkerID shortMarker (pre ++ (marker ++ (run ++ post))) with
    | some w => exact ⟨w, rfl, findMarkerID_props _ _ h2⟩
    | none =>
      cases h3 : findMarkerID embedMarker (pre ++ (marker ++ (run ++ post))) with
      | some w => exact ⟨w, rfl, findMarkerID_props _ _ h3⟩
      | none =>
        exfalso
        rcases hm with rfl | rfl | rfl
        · rw [h1] at hsome; cases hsome
        · rw [h2] at hsome; cases hsome
        · rw [h3] at hsome; cases hsome

/-- Helper: over a URL of the canonical shape — a prefix without `y`, then a
marker, then only identifier-class characters — extraction returns exactly
the first 11 characters after the marker. -/
theorem extract_canonical (cpre marker run : List Char)
    (hy : ∀ c ∈ cpre, c ≠ 'y')
    (hm : marker = watchMarker ∨ marker = shortMarker ∨ marker = embedMarker)
    (h11 : 11 ≤ run.length) (hcls : run.all idClass = true) :
    extractYouTubeVideoID (cpre ++ (marker ++ run)) = some (run.take 11) := by
  have htake : (run.take 11).all idClass = true := all_take_idClass hcls 11
  have hbadWatch : findMarkerID watchMarker run = none :=
    findMarkerID_none_of_badChar watchMarker '.' (by decide) (by decide) run hcls
  have hbadShort : findMarkerID shortMarker run = none :=
    findMarkerID_none_of_badChar shortMarker '.' (by decide) (by decide) run hcls
  have hwEq : watchMarker = 'y' :: "outube.com/watch?v=".data := rfl
  have hsEq : shortMarker = 'y' :: "outu.be/".data := rfl
  have heEq : embedMarker = 'y' :: "outube.com/embed/".data := rfl
  rcases hm with rfl | rfl | rfl
  · have h1 : findMarkerID watchMarker (cpre ++ (watchMarker ++ run)) =
        some (run.take 11) := by
      rw [hwEq, findMarkerID_append_noHead _ cpre _ hy, ← hwEq]
      exact findMarkerID_self watchMarker run (by decide) h11 htake
    unfold extractYouTubeVideoID
    rw [h1]
  · have h1 : findMarkerID watchMarker (cpre ++ (shortMarker ++ run)) =
        none := by
      rw [hwEq, findMarkerID_append_noHead _ cpre _ hy, ← hwEq,
        show shortMarker ++ run = "youtu.be/".data ++ run from rfl,
        watchScanShort run]
      exact hbadWatch
    have h2 : findMarkerID shortMarker (cpre ++ (shortMarker ++ run)) =
        some (run.take 11) := by
      rw [hsEq, findMarkerID_append_noHead _ cpre _ hy, ← hsEq]
      exact findMarkerID_self shortMarker run (by decide) h11 htake
    unfold extractYouTubeVideoID
    rw [h1, h2]
  · have h1 : findMarkerID watchMarker (cpre ++ (embedMarker ++ run)) =
        none := by
      rw [hwEq, findMarkerID_append_noHead _ cpre _ hy, ← hwEq,
        show embedMarker ++ run = "youtube.com/embed/".data ++ run from rfl,
        watchScanEmbed run]
      exact hbadWatch
    have h2 : findMarkerID shortMarker (cpre ++ (embedMarker ++ run)) =
        none := by
      rw [hsEq, findMarkerID_append_noHead _ cpre _ hy, ← hsEq,
        show embedMarker ++ run = "youtube.com/embed/".data ++ run from rfl,
        shortScanEmbed run]
      exact hbadShort
    have h3 : findMarkerID embedMarker (cpre ++ (embedMarker ++ run)) =
        some (run.take 11) := by
      rw [heEq, findMarkerID_append_noHead _ cpre _ hy, ← heEq]
      exact findMarkerID_self embedMarker run (by decide) h11 htake
    unfold extractYouTubeVideoID
    rw [h1, h2, h3]

/-- C3: the URL classifier is pure and total.  Every URL of a known
video-host shape — `http`/`https` scheme, optional `www.`, then the
watch-page, short-link or embed form with an 11-character class identifier,
followed by anything (e.g. trailing query parameters) — classifies as
`VideoHost` with a successfully extracted identifier of exactly 11
characters from `[A-Za-z0-9_-]`; every URL the regex does not match
classifies as `Generic` (total functions, nothing raises). -/
theorem classify_videoHost_and_generic :
    (∀ scheme www marker id rest : List Char,
      (scheme = "http://".data ∨ scheme = "https://".data) →
      (www = [] ∨ www = "www.".data) →
      (marker = watchMarker ∨ marker = shortMarker ∨ marker = embedMarker) →
      id.length = 11 → id.all idClass = true →
      isYouTubeURL (scheme ++ (www ++ (marker ++ (id ++ rest)))) = true ∧
      ∃ v, classify (scheme ++ (www ++ (marker ++ (id ++ rest)))) =
          .videoHost (some v) ∧ v.length = 11 ∧ v.all idClass = true) ∧
    (∀ url : List Char, isYouTubeURL url = false → classify url = .generic) := by
  constructor
  · intro scheme www marker id rest hs hw hm hlen hcls
    have h11 : 11 ≤ id.length := by omega
    have hyt : isYouTubeURL (scheme ++ (www ++ (marker ++ (id ++ rest)))) =
        true := by
      rcases hs with rfl | rfl <;> rcases hw with rfl | rfl <;>
        rcases hm with rfl | rfl | rfl <;>
        simp [isYouTubeURL, watchMarker, shortMarker, embedMarker,
          List.isPrefixOf]
    refine ⟨hyt, ?_⟩
    obtain ⟨v, hv, hvl, hvc⟩ :=
      extract_general (scheme ++ www) marker id rest hm h11 hcls
    have hassoc : scheme ++ (www ++ (marker ++ (id ++ rest))) =
        (scheme ++ www) ++ (marker ++ (id ++ rest)) :=
      (List.append_assoc scheme www (marker ++ (id ++ rest))).symm
    have hv' : extractYouTubeVideoID
        (scheme ++ (www ++ (marker ++ (id ++ rest)))) = some v := by
      rw [hassoc]
      exact hv
    refine ⟨v, ?_, hvl, hvc⟩
    simp [classify, hyt, hv']
  · intro url h
    simp [classify, h]

/-- Witness for C3: a `www.`-prefixed watch URL with a trailing query
parameter classifies as `VideoHost` with an 11-character identifier. -/
theorem classify_videoHost_and_generic_witness :
    isYouTubeURL ("https://".data ++ ("www.".data ++ (watchMarker ++
        ("dQw4w9WgXcQ".data ++ "&t=1s".data)))) = true ∧
      ∃ v, classify ("https://".data ++ ("www.".data ++ (watchMarker ++
          ("dQw4w9WgXcQ".data ++ "&t=1s".data)))) = .videoHost (some v) ∧
        v.length = 11 ∧ v.all idClass = true :=
  classify_videoHost_and_generic.1 "https://".data "www.".data watchMarker
    "dQw4w9WgXcQ".data "&t=1s".data (Or.inr rfl) (Or.inr rfl) (Or.inl rfl)
    (by decide) (by decide)

/-- C10: when a video-host marker is followed by 11 or more consecutive
identifier-class characters, extraction succeeds and a longer
identifier-like token is silently truncated to its first 11 characters
rather than failing: over the canonical URL shapes the result is exactly
`run.take 11`, and in any URL containing such a marker-plus-run the
extraction succeeds with an 11-character class token. -/
theorem extraction_truncates_long_token :
    (∀ scheme www marker run : List Char,
      (scheme = "http://".data ∨ scheme = "https://".data) →
      (www = [] ∨ www = "www.".data) →
      (marker = watchMarker ∨ marker = shortMarker ∨ marker = embedMarker) →
      11 ≤ run.length → run.all idClass = true →
      extractYouTubeVideoID (scheme ++ (www ++ (marker ++ run))) =
        some (run.take 11)) ∧
    (∀ pre marker run post : List Char,
      (marker = watchMarker ∨ marker = shortMarker ∨ marker = embedMarker) →
      11 ≤ run.length → run.all idClass = true →
      ∃ v, extractYouTubeVideoID (pre ++ (marker ++ (run ++ post))) = some v ∧
        v.length = 11 ∧ v.all idClass = true) := by
  constructor
  · intro scheme www marker run hs hw hm h11 hcls
    have hassoc : scheme ++ (www ++ (marker ++ run)) =
        (scheme ++ www) ++ (marker ++ run) :=
      (List.append_assoc scheme www (marker ++ run)).symm
    rw [hassoc]
    refine extract_canonical (scheme ++ www) marker run ?_ hm h11 hcls
    rcases hs with rfl | rfl <;> rcases hw with rfl | rfl <;> decide
  · exact fun pre marker run post hm h11 hcls =>
      extract_general pre marker run post hm h11 hcls

/-- Witness for C10: a 16-character token after `youtu.be/` is truncated to
its first 11 characters. -/
theorem extraction_truncates_long_token_witness :
    extractYouTubeVideoID ("https://".data ++ ([] ++ (shortMarker ++
        "abcdefghijkLMNOP".data))) = some ("abcdefghijkLMNOP".data.take 11) :=
  extraction_truncates_long_token.1 "https://".data [] shortMarker
    "abcdefghijkLMNOP".data (Or.inr rfl) (Or.inl rfl) (Or.inr (Or.inl rfl))
    (by decide) (by decide)

end SocialTools
